import Mathlib

/-!
Verification development for the rigor S3 storage client
(`src/lib/s3.py`, class `BotoS3Client`, plus its abstract base
`RigorS3Client`).

The client wraps an S3-compatible backend behind get/put/delete/list.
Two variants exist: variant A uses the boto2 SDK (`boto.s3`), variant B
uses the boto3 SDK; each method of `BotoS3Client` checks
`'boto3' in sys.modules` and dispatches accordingly.

Shallow embedding choices:
* the remote bucket and the local filesystem are association lists from
  string names to byte sequences (`List Nat`);
* each backend network call can be made to fail by a `fault` parameter
  (`Option PyExc`): `some e` means the SDK call raises exception `e`
  (transport or auth failure), `none` means the backend behaves
  according to the bucket state.  This models the external SDK as an
  opaque collaborator, as the spec treats it;
* Python return values are the inductive `PyVal` (None, True, a
  `BytesIO` stream with a position, or a key listing); raised
  exceptions are the `Except` error channel.
-/

namespace RigorS3

/-- A byte sequence (object content, file content). -/
abbrev Bytes := List Nat

/-- The remote bucket: association list from object keys to contents. -/
abbrev Bucket := List (String × Bytes)

/-- The local filesystem: association list from paths to file contents. -/
abbrev FileSys := List (String × Bytes)

/-- First-match association-list lookup. -/
def assoc {α : Type} (l : List (String × α)) (k : String) : Option α :=
  match l with
  | [] => none
  | (k₁, v) :: rest => if k₁ = k then some v else assoc rest k

/-- Remove every entry with the given key. -/
def removeKey (b : Bucket) (k : String) : Bucket :=
  match b with
  | [] => []
  | (k₁, v) :: rest => if k₁ = k then removeKey rest k else (k₁, v) :: removeKey rest k

/-- Store `v` at key `k`, overwriting any existing entry (S3 put semantics:
keys are unique within the bucket namespace). -/
def storeKey (b : Bucket) (k : String) (v : Bytes) : Bucket :=
  (k, v) :: removeKey b k

/-- The keys present in the bucket, as produced by a listing. -/
def bucketKeys (b : Bucket) : List String :=
  b.map Prod.fst

/-- `strStarts p k` holds when key `k` starts with the string `p`
(the S3 listing prefix filter). -/
def strStarts (p k : String) : Bool :=
  p.data.isPrefixOf k.data

/-- Exceptions that can cross the wrapper's boundary. -/
inductive PyExc where
  /-- `botocore.exceptions.ClientError` with an error code; raised by the
  boto3 SDK both for "no such key" (code 404) and for auth/service
  failures (e.g. code 403 AccessDenied). -/
  | clientError (code : String)
  /-- `boto.exception.S3ResponseError`: transport/auth failure in the
  boto2 SDK. -/
  | s3ResponseError
  /-- Missing configuration section or option at construction
  (the spec's `ConfigurationError`). -/
  | configurationError (msg : String)
  /-- Any other exception (e.g. a connection error that is not a
  `ClientError`). -/
  | otherError (name : String)
deriving DecidableEq, Repr

/-- Python values returned by the client's operations. -/
inductive PyVal where
  /-- Python `None`. -/
  | none
  /-- Python `True`. -/
  | pyTrue
  /-- An in-memory `BytesIO` stream: current position and full content. -/
  | streamVal (pos : Nat) (content : Bytes)
  /-- A listing of object keys. -/
  | keyList (ks : List String)
deriving DecidableEq, Repr

/-- The observable world: remote bucket state and local filesystem. -/
structure World where
  bucket : Bucket
  fs : FileSys
deriving DecidableEq, Repr

/-- The `data` argument of `put`: Python duck-types it as a file-like
object (has `read`) or a path string (spec: `ObjectData = Stream | FilePath`). -/
inductive ObjectData where
  | stream (content : Bytes)
  | path (p : String)
deriving DecidableEq, Repr

/-- Resolve the bytes a `put` would upload: a stream's content directly,
or the content of the local file at the given path (reading a missing
file raises). -/
def dataBytes (fs : FileSys) (d : ObjectData) : Except PyExc Bytes :=
  match d with
  | .stream c => .ok c
  | .path p =>
    match assoc fs p with
    | some c => .ok c
    | none => .error (.otherError "IOError")

/-- Variant A (`boto.s3`, lines 108-117 of `src/lib/s3.py`):
`fetched_key = self.bucket.get_key(key)` returns `None` when the key is
absent and raises on a transport/auth fault; then either the content is
read into a fresh `BytesIO` seeked to 0 and returned, or
`get_contents_to_filename(local_file)` writes it to the path and the
method falls off the end, returning `None`. -/
def boto2_get (w : World) (key : String) (localFile : Option String)
    (fault : Option PyExc) : Except PyExc (PyVal × World) :=
  match fault with
  | some e => .error e
  | none =>
    match assoc w.bucket key with
    | none => .ok (.none, w)
    | some content =>
      match localFile with
      | none => .ok (.streamVal 0 content, w)
      | some lf => .ok (.none, ⟨w.bucket, storeKey w.fs lf content⟩)

/-- The boto3 download call (`bucket.download_fileobj` /
`bucket.download_file`): on a fault it raises that exception; otherwise
it yields the content when the key exists and raises
`ClientError` 404 when it does not. -/
def boto3_download (b : Bucket) (key : String) (fault : Option PyExc) :
    Except PyExc Bytes :=
  match fault with
  | some e => .error e
  | none =>
    match assoc b key with
    | some content => .ok content
    | none => .error (.clientError "404")

/-- Variant B (`BotoS3Client.__boto3_get__`, lines 149-164): downloads
into a fresh `BytesIO` and seeks to 0 (no `local_file`), or downloads to
the path and returns `True`; `except botocore.exceptions.ClientError`
catches ANY client error and returns `None`. Other exceptions propagate. -/
def boto3_get (w : World) (key : String) (localFile : Option String)
    (fault : Option PyExc) : Except PyExc (PyVal × World) :=
  match localFile with
  | none =>
    match boto3_download w.bucket key fault with
    | .ok content => .ok (.streamVal 0 content, w)
    | .error (.clientError _) => .ok (.none, w)
    | .error e => .error e
  | some lf =>
    match boto3_download w.bucket key fault with
    | .ok content => .ok (.pyTrue, ⟨w.bucket, storeKey w.fs lf content⟩)
    | .error (.clientError _) => .ok (.none, w)
    | .error e => .error e

/-- Variant A `put` (lines 124-129): a fresh `Key(self.bucket)` with
`remote_key.key = key`, then `set_contents_from_file(data)` when `data`
has `read`, else `set_contents_from_filename(data)`. Returns `None`. -/
def boto2_put (w : World) (key : String) (d : ObjectData)
    (fault : Option PyExc) : Except PyExc (PyVal × World) :=
  match fault with
  | some e => .error e
  | none =>
    match dataBytes w.fs d with
    | .error e => .error e
    | .ok bs => .ok (.none, ⟨storeKey w.bucket key bs, w.fs⟩)

/-- Variant B `put` (`__boto3_put__`, lines 166-173):
`upload_fileobj(data, key)` when `data` has `read`, else
`upload_file(data, key)`. Returns `None`. -/
def boto3_put (w : World) (key : String) (d : ObjectData)
    (fault : Option PyExc) : Except PyExc (PyVal × World) :=
  match fault with
  | some e => .error e
  | none =>
    match dataBytes w.fs d with
    | .error e => .error e
    | .ok bs => .ok (.none, ⟨storeKey w.bucket key bs, w.fs⟩)

/-- Variant A `delete` (lines 136-138): a fresh `Key` and
`remote_key.delete()`; deleting an absent key is accepted by S3. -/
def boto2_delete (w : World) (key : String) (fault : Option PyExc) :
    Except PyExc (PyVal × World) :=
  match fault with
  | some e => .error e
  | none => .ok (.none, ⟨removeKey w.bucket key, w.fs⟩)

/-- The key list of the batch-delete request built at line 179:
`delObject = \x7b'Objects': [\x7b'Key': key\x7d]\x7d`. -/
def boto3_deleteRequest (key : String) : List String :=
  [key]

/-- The S3 batch delete call (`bucket.delete_objects`): removes every
listed key; absent keys are silently accepted. -/
def delete_objects (b : Bucket) (keys : List String) : Bucket :=
  keys.foldl removeKey b

/-- Variant B `delete` (`__boto3_delete__`, lines 175-180): issues one
batch delete request holding exactly the given key. -/
def boto3_delete (w : World) (key : String) (fault : Option PyExc) :
    Except PyExc (PyVal × World) :=
  match fault with
  | some e => .error e
  | none => .ok (.none, ⟨delete_objects w.bucket (boto3_deleteRequest key), w.fs⟩)

/-- Variant A `list` (lines 145-147): `prefix = ""` when `None`, then
`self.bucket.list(prefix=prefix)` yields the keys starting with the
prefix. -/
def boto2_list (w : World) (pre : Option String) (fault : Option PyExc) :
    Except PyExc (PyVal × World) :=
  match fault with
  | some e => .error e
  | none =>
    let p := match pre with
      | none => ""
      | some s => s
    .ok (.keyList ((bucketKeys w.bucket).filter (fun k => strStarts p k)), w)

/-- Variant B `list` (`__boto3_list__`, lines 182-189):
`objects.all()` when no prefix, else `objects.filter(Prefix=prefix)`. -/
def boto3_list (w : World) (pre : Option String) (fault : Option PyExc) :
    Except PyExc (PyVal × World) :=
  match fault with
  | some e => .error e
  | none =>
    match pre with
    | none => .ok (.keyList (bucketKeys w.bucket), w)
    | some p => .ok (.keyList ((bucketKeys w.bucket).filter (fun k => strStarts p k)), w)

/-- The backend variant: A is boto2, B is boto3. -/
inductive Variant where
  | boto2
  | boto3
deriving DecidableEq, Repr

/-- The variant implied by `'boto3' in sys.modules`. -/
def moduleVariant (boto3Avail : Bool) : Variant :=
  if boto3Avail then .boto3 else .boto2

/-- `BotoS3Client.get` (lines 103-117) in the coherent case, where the
constructed bucket handle matches call-time module availability: checks
`'boto3' in sys.modules` AT CALL TIME and dispatches to `__boto3_get__`
or the boto2 body.  `handle_get` below is the general dispatch that also
covers a mismatched handle. -/
def client_get (boto3Avail : Bool) (w : World) (key : String)
    (localFile : Option String) (fault : Option PyExc) :
    Except PyExc (PyVal × World) :=
  if boto3Avail then boto3_get w key localFile fault
  else boto2_get w key localFile fault

/-- `BotoS3Client.put` (lines 119-129): per-call module check, then
dispatch. -/
def client_put (boto3Avail : Bool) (w : World) (key : String)
    (d : ObjectData) (fault : Option PyExc) : Except PyExc (PyVal × World) :=
  if boto3Avail then boto3_put w key d fault
  else boto2_put w key d fault

/-- `BotoS3Client.delete` (lines 131-138): per-call module check, then
dispatch. -/
def client_delete (boto3Avail : Bool) (w : World) (key : String)
    (fault : Option PyExc) : Except PyExc (PyVal × World) :=
  if boto3Avail then boto3_delete w key fault
  else boto2_delete w key fault

/-- `BotoS3Client.list` (lines 140-147): per-call module check, then
dispatch. -/
def client_list (boto3Avail : Bool) (w : World) (pre : Option String)
    (fault : Option PyExc) : Except PyExc (PyVal × World) :=
  if boto3Avail then boto3_list w pre fault
  else boto2_list w pre fault

/-- `BotoS3Client.get` with the constructed bucket handle made explicit.
The per-call `'boto3' in sys.modules` check (line 105) selects the code
path, but that path's SDK methods exist only on the matching handle:
entering `__boto3_get__` with a boto2 bucket stored at construction
calls `self.bucket.download_fileobj`, which a boto2 bucket does not
have, so Python raises `AttributeError` (and symmetrically the boto2
body's `self.bucket.get_key` does not exist on a boto3 `Bucket`
resource); the wrapper has no handler for it, so it propagates. -/
def handle_get (hv : Variant) (boto3Avail : Bool) (w : World) (key : String)
    (localFile : Option String) (fault : Option PyExc) :
    Except PyExc (PyVal × World) :=
  if boto3Avail then
    match hv with
    | .boto3 => boto3_get w key localFile fault
    | .boto2 => .error (.otherError "AttributeError")
  else
    match hv with
    | .boto2 => boto2_get w key localFile fault
    | .boto3 => .error (.otherError "AttributeError")

/-- `BotoS3Client.put` with the constructed bucket handle made explicit:
a mismatched handle raises `AttributeError` inside the selected path
(boto3 path: `self.bucket.upload_fileobj`/`upload_file` missing on a
boto2 bucket; boto2 path: `Key(self.bucket)`'s upload hits missing
boto2 attributes on a boto3 `Bucket` resource). -/
def handle_put (hv : Variant) (boto3Avail : Bool) (w : World) (key : String)
    (d : ObjectData) (fault : Option PyExc) : Except PyExc (PyVal × World) :=
  if boto3Avail then
    match hv with
    | .boto3 => boto3_put w key d fault
    | .boto2 => .error (.otherError "AttributeError")
  else
    match hv with
    | .boto2 => boto2_put w key d fault
    | .boto3 => .error (.otherError "AttributeError")

/-- `BotoS3Client.delete` with the constructed bucket handle made
explicit: a mismatched handle raises `AttributeError`
(`self.bucket.delete_objects` missing on a boto2 bucket, and the boto2
`Key` deletion path missing on a boto3 `Bucket` resource). -/
def handle_delete (hv : Variant) (boto3Avail : Bool) (w : World) (key : String)
    (fault : Option PyExc) : Except PyExc (PyVal × World) :=
  if boto3Avail then
    match hv with
    | .boto3 => boto3_delete w key fault
    | .boto2 => .error (.otherError "AttributeError")
  else
    match hv with
    | .boto2 => boto2_delete w key fault
    | .boto3 => .error (.otherError "AttributeError")

/-- `BotoS3Client.list` with the constructed bucket handle made
explicit: a mismatched handle raises `AttributeError`
(`self.bucket.objects` missing on a boto2 bucket, `self.bucket.list`
missing on a boto3 `Bucket` resource). -/
def handle_list (hv : Variant) (boto3Avail : Bool) (w : World)
    (pre : Option String) (fault : Option PyExc) : Except PyExc (PyVal × World) :=
  if boto3Avail then
    match hv with
    | .boto3 => boto3_list w pre fault
    | .boto2 => .error (.otherError "AttributeError")
  else
    match hv with
    | .boto2 => boto2_list w pre fault
    | .boto3 => .error (.otherError "AttributeError")

/-- Configuration data: section name to (option name to value), the
key-value lookup the spec's Configuration collaborator supplies. -/
abbrev Config := List (String × List (String × String))

/-- Modelled from the spec: `rigor.config.RigorConfiguration` is part of
this repository but not under `src/`; spec section 6 requires the
configuration collaborator to expose `get(section, key) -> string`,
"failing clearly when section/key absent", and section 7 names that
failure `ConfigurationError`. -/
def configGet (c : Config) (sec opt : String) : Except PyExc String :=
  match assoc c sec with
  | none => .error (.configurationError "NoSectionError")
  | some opts =>
    match assoc opts opt with
    | none => .error (.configurationError "NoOptionError")
    | some v => .ok v

/-- The state a successfully constructed `BotoS3Client` holds: the kind
of bucket handle obtained at construction (a boto3 `Bucket` resource or
a boto2 bucket), the bucket name, and the resolved credential pair. -/
structure ClientState where
  initVariant : Variant
  bucketName : String
  creds : Option (String × String)
deriving DecidableEq, Repr

/-- `BotoS3Client.__init__` (lines 84-101): when `credentials` is given,
`config.get(credentials, 'aws_access_key_id')` and
`config.get(credentials, 'aws_secret_access_key')` are evaluated while
building `connection_args` (lines 87-89), before any connection is made,
and raise if the section or option is missing; the boto3 branch
re-reads the same two values (lines 92-93).  The bucket handle is then
obtained from whichever SDK is available at construction time. -/
def client_init (boto3Avail : Bool) (config : Config) (bucket : String)
    (credentials : Option String) : Except PyExc ClientState :=
  match credentials with
  | none => .ok ⟨moduleVariant boto3Avail, bucket, none⟩
  | some cred =>
    match configGet config cred "aws_access_key_id" with
    | .error e => .error e
    | .ok ak =>
      match configGet config cred "aws_secret_access_key" with
      | .error e => .error e
      | .ok sk => .ok ⟨moduleVariant boto3Avail, bucket, some (ak, sk)⟩

/-! ### Association-list lemmas -/

theorem assoc_removeKey_self (b : Bucket) (k : String) :
    assoc (removeKey b k) k = none := by
  induction b with
  | nil => rfl
  | cons hd tl ih =>
    obtain ⟨k₁, v⟩ := hd
    by_cases h : k₁ = k <;> simp [removeKey, assoc, h, ih]

theorem assoc_removeKey_ne (b : Bucket) (k k' : String) (h : k' ≠ k) :
    assoc (removeKey b k) k' = assoc b k' := by
  induction b with
  | nil => rfl
  | cons hd tl ih =>
    obtain ⟨k₁, v⟩ := hd
    by_cases h₁ : k₁ = k
    · subst h₁
      simp [removeKey, assoc, Ne.symm h, ih]
    · simp [removeKey, assoc, h₁, ih]

theorem assoc_storeKey_self (b : Bucket) (k : String) (v : Bytes) :
    assoc (storeKey b k v) k = some v := by
  simp [storeKey, assoc]

theorem assoc_storeKey_ne (b : Bucket) (k k' : String) (v : Bytes) (h : k' ≠ k) :
    assoc (storeKey b k v) k' = assoc b k' := by
  simp [storeKey, assoc, Ne.symm h, assoc_removeKey_ne b k k' h]

theorem strStarts_empty (k : String) : strStarts "" k = true := by
  simp [strStarts]

theorem delete_objects_single (b : Bucket) (k : String) :
    delete_objects b [k] = removeKey b k := rfl

/-! When the bucket handle matches call-time availability, the
handle-aware dispatchers coincide with the coherent-case `client_*`
functions. -/

theorem handle_get_coherent (a : Bool) (w : World) (k : String)
    (lf : Option String) (fault : Option PyExc) :
    handle_get (moduleVariant a) a w k lf fault = client_get a w k lf fault := by
  cases a <;> rfl

theorem handle_put_coherent (a : Bool) (w : World) (k : String)
    (d : ObjectData) (fault : Option PyExc) :
    handle_put (moduleVariant a) a w k d fault = client_put a w k d fault := by
  cases a <;> rfl

theorem handle_delete_coherent (a : Bool) (w : World) (k : String)
    (fault : Option PyExc) :
    handle_delete (moduleVariant a) a w k fault = client_delete a w k fault := by
  cases a <;> rfl

theorem handle_list_coherent (a : Bool) (w : World) (pre : Option String)
    (fault : Option PyExc) :
    handle_list (moduleVariant a) a w pre fault = client_list a w pre fault := by
  cases a <;> rfl

/-! ### Claim theorems -/

/-- C4: for every key `k` not present in the bucket, `get(k)` returns the
not-found sentinel `None` as a normal return value (no exception), in
both backend variants, with or without a `local_file` destination. -/
theorem C4_get_absent_returns_sentinel (boto3Avail : Bool) (w : World) (k : String)
    (lf : Option String) (h : assoc w.bucket k = none) :
    client_get boto3Avail w k lf none = .ok (.none, w) := by
  cases boto3Avail <;> cases lf <;>
    simp [client_get, boto2_get, boto3_get, boto3_download, h]

/-- Witness for C4 at a concrete input: the empty bucket does not hold
key `k`, and `get` returns `None`. -/
theorem C4_witness :
    assoc (⟨[], []⟩ : World).bucket "k" = none ∧
    client_get true ⟨[], []⟩ "k" none none = .ok (.none, ⟨[], []⟩) :=
  ⟨rfl, C4_get_absent_returns_sentinel true ⟨[], []⟩ "k" none rfl⟩

/-- C5: `put(k, data)` followed by `get(k)` (no `local_file`) succeeds and
returns an in-memory stream positioned at offset 0 whose content equals
the bytes of `data`, in both variants. -/
theorem C5_put_then_get (boto3Avail : Bool) (w : World) (k : String) (d : ObjectData)
    (bs : Bytes) (h : dataBytes w.fs d = .ok bs) :
    ∃ w₁, client_put boto3Avail w k d none = .ok (.none, w₁) ∧
      client_get boto3Avail w₁ k none none = .ok (.streamVal 0 bs, w₁) := by
  refine ⟨⟨storeKey w.bucket k bs, w.fs⟩, ?_, ?_⟩ <;> cases boto3Avail <;>
    simp [client_put, boto2_put, boto3_put, client_get, boto2_get, boto3_get,
      boto3_download, h, assoc_storeKey_self]

/-- Witness for C5 at a concrete input. -/
theorem C5_witness :
    dataBytes (⟨[], []⟩ : World).fs (ObjectData.stream [49]) = .ok [49] ∧
    ∃ w₁, client_put true ⟨[], []⟩ "k" (ObjectData.stream [49]) none = .ok (.none, w₁) ∧
      client_get true w₁ "k" none none = .ok (.streamVal 0 [49], w₁) :=
  ⟨rfl, C5_put_then_get true ⟨[], []⟩ "k" (ObjectData.stream [49]) [49] rfl⟩

/-- C6: `put(k, d₁)`; `put(k, d₂)`; `get(k)` yields the bytes of `d₂`:
put silently overwrites and the last write wins, in both variants. -/
theorem C6_last_write_wins (boto3Avail : Bool) (w : World) (k : String)
    (d₁ d₂ : ObjectData) (b₁ b₂ : Bytes)
    (h₁ : dataBytes w.fs d₁ = .ok b₁) (h₂ : dataBytes w.fs d₂ = .ok b₂) :
    ∃ w₁ w₂, client_put boto3Avail w k d₁ none = .ok (.none, w₁) ∧
      client_put boto3Avail w₁ k d₂ none = .ok (.none, w₂) ∧
      client_get boto3Avail w₂ k none none = .ok (.streamVal 0 b₂, w₂) := by
  refine ⟨⟨storeKey w.bucket k b₁, w.fs⟩,
    ⟨storeKey (storeKey w.bucket k b₁) k b₂, w.fs⟩, ?_, ?_, ?_⟩ <;>
    cases boto3Avail <;>
    simp [client_put, boto2_put, boto3_put, client_get, boto2_get, boto3_get,
      boto3_download, h₁, h₂, assoc_storeKey_self]

/-- Witness for C6 at a concrete input. -/
theorem C6_witness :
    dataBytes (⟨[], []⟩ : World).fs (ObjectData.stream [48]) = .ok [48] ∧
    dataBytes (⟨[], []⟩ : World).fs (ObjectData.stream [49]) = .ok [49] ∧
    ∃ w₁ w₂, client_put true ⟨[], []⟩ "k" (ObjectData.stream [48]) none = .ok (.none, w₁) ∧
      client_put true w₁ "k" (ObjectData.stream [49]) none = .ok (.none, w₂) ∧
      client_get true w₂ "k" none none = .ok (.streamVal 0 [49], w₂) :=
  ⟨rfl, rfl, C6_last_write_wins true ⟨[], []⟩ "k" (ObjectData.stream [48])
    (ObjectData.stream [49]) [48] [49] rfl rfl⟩

/-- C7: `delete(k)` succeeds without error whether or not `k` is present
(a no-op on an absent key), and a subsequent `get(k)` returns the
not-found sentinel, in both variants. -/
theorem C7_delete_then_get (boto3Avail : Bool) (w : World) (k : String) :
    ∃ w₁, client_delete boto3Avail w k none = .ok (.none, w₁) ∧
      client_get boto3Avail w₁ k none none = .ok (.none, w₁) := by
  refine ⟨⟨removeKey w.bucket k, w.fs⟩, ?_, ?_⟩ <;> cases boto3Avail <;>
    simp [client_delete, boto2_delete, boto3_delete, delete_objects, boto3_deleteRequest,
      client_get, boto2_get, boto3_get, boto3_download, assoc_removeKey_self]

/-- C8: `list(p)` succeeds and produces exactly the keys of the bucket
that start with `p`; `list(None)` produces exactly all keys; an empty
bucket yields an empty listing, not an error.  Holds in both variants. -/
theorem C8_list_exact (boto3Avail : Bool) (w : World) (pre : Option String) :
    ∃ ks, client_list boto3Avail w pre none = .ok (.keyList ks, w) ∧
      (∀ k, k ∈ ks ↔ k ∈ bucketKeys w.bucket ∧ strStarts (pre.getD "") k = true) ∧
      (w.bucket = [] → ks = []) := by
  cases boto3Avail <;> cases pre <;>
    exact ⟨_, rfl, fun k => by simp [List.mem_filter, strStarts_empty],
      fun hb => by simp [hb, bucketKeys]⟩

/-- C10: `put(k, data)` and `delete(k)` leave every other key `k'`
unchanged, and the boto3 batch-delete request contains exactly the one
given key. -/
theorem C10_frame (boto3Avail : Bool) (w : World) (k k' : String) (d : ObjectData)
    (bs : Bytes) (hne : k' ≠ k) (hd : dataBytes w.fs d = .ok bs) :
    (∃ w₁, client_put boto3Avail w k d none = .ok (.none, w₁) ∧
       assoc w₁.bucket k' = assoc w.bucket k') ∧
    (∃ w₂, client_delete boto3Avail w k none = .ok (.none, w₂) ∧
       assoc w₂.bucket k' = assoc w.bucket k') ∧
    boto3_deleteRequest k = [k] := by
  refine ⟨⟨⟨storeKey w.bucket k bs, w.fs⟩, ?_, ?_⟩,
    ⟨⟨removeKey w.bucket k, w.fs⟩, ?_, ?_⟩, rfl⟩ <;> cases boto3Avail <;>
    simp [client_put, boto2_put, boto3_put, client_delete, boto2_delete, boto3_delete,
      delete_objects, boto3_deleteRequest, hd,
      assoc_storeKey_ne w.bucket k k' bs hne, assoc_removeKey_ne w.bucket k k' hne]

/-- Witness for C10 at a concrete input. -/
theorem C10_witness :
    ("a" : String) ≠ "b" ∧
    dataBytes (⟨[("a", [1])], []⟩ : World).fs (ObjectData.stream [2]) = .ok [2] ∧
    (∃ w₁, client_put true ⟨[("a", [1])], []⟩ "b" (ObjectData.stream [2]) none = .ok (.none, w₁) ∧
       assoc w₁.bucket "a" = assoc (⟨[("a", [1])], []⟩ : World).bucket "a") ∧
    (∃ w₂, client_delete true ⟨[("a", [1])], []⟩ "b" none = .ok (.none, w₂) ∧
       assoc w₂.bucket "a" = assoc (⟨[("a", [1])], []⟩ : World).bucket "a") ∧
    boto3_deleteRequest "b" = ["b"] :=
  ⟨by decide, rfl, C10_frame true ⟨[("a", [1])], []⟩ "b" "a" (ObjectData.stream [2]) [2]
    (by decide) rfl⟩

/-- C1 counterexample: in the boto3 variant, an auth/service failure
raised as `botocore.exceptions.ClientError` (e.g. code 403) during
`get(key)` does NOT propagate as an error: the blanket
`except ClientError: return None` at lines 161-162 returns the `None`
sentinel — the very value that signals "key absent" (second conjunct).
The two outcomes are conflated into the same return value. -/
theorem C1_counterexample :
    client_get true ⟨[], []⟩ "k" none (some (PyExc.clientError "403")) =
      .ok (PyVal.none, ⟨[], []⟩) ∧
    client_get true ⟨[], []⟩ "k" none none = .ok (PyVal.none, ⟨[], []⟩) :=
  ⟨rfl, rfl⟩

/-- C1 (amended): in the boto2 variant every backend failure during
`get(key)` propagates as an exception (and `None` is produced only by an
absent key, per `C4_get_absent_returns_sentinel`); in the boto3 variant
only failures that are NOT `ClientError` propagate, while any
`ClientError` — including auth/service failures, not just "no such
key" — is caught and returned as the `None` sentinel, conflating it
with not-found. -/
theorem C1_amended_fault_behavior (w : World) (k : String) (e : PyExc)
    (code nm : String) :
    client_get false w k none (some e) = .error e ∧
    client_get true w k none (some (.clientError code)) = .ok (.none, w) ∧
    client_get true w k none (some .s3ResponseError) = .error .s3ResponseError ∧
    client_get true w k none (some (.otherError nm)) = .error (.otherError nm) := by
  refine ⟨?_, ?_, ?_, ?_⟩ <;> simp [client_get, boto2_get, boto3_get, boto3_download]

/-- C2 counterexample: on equivalent inputs (key `"k"` present with
content, destination path `"f"`), `get("k", "f")` writes the content to
the path in both variants, but variant B (boto3, line 160) returns
`True` while variant A (boto2, line 117) falls off the end of the method
and returns `None`: no success indicator, and not observably equivalent. -/
theorem C2_counterexample :
    client_get false ⟨[("k", [48])], []⟩ "k" (some "f") none =
      .ok (PyVal.none, ⟨[("k", [48])], [("f", [48])]⟩) ∧
    client_get true ⟨[("k", [48])], []⟩ "k" (some "f") none =
      .ok (PyVal.pyTrue, ⟨[("k", [48])], [("f", [48])]⟩) ∧
    PyVal.none ≠ PyVal.pyTrue :=
  ⟨rfl, rfl, by decide⟩

/-- C2 (amended): in fault-free executions the two variants are
observably equivalent on every world — empty bucket, absent key or
present key — for `get` without `local_file`, for `put`, for `delete`
and for `list`; for `get` with a `local_file` both variants return
`None` and leave the world unchanged when the key is absent, and both
write the object content to the path when it is present, but then
variant B returns `True` while variant A returns `None` (no success
indicator). -/
theorem C2_amended_equivalence (w : World) (k f : String) (d : ObjectData)
    (pre : Option String) :
    client_get false w k none none = client_get true w k none none ∧
    client_put false w k d none = client_put true w k d none ∧
    client_delete false w k none = client_delete true w k none ∧
    client_list false w pre none = client_list true w pre none ∧
    (client_get false w k (some f) none =
      match assoc w.bucket k with
      | none => .ok (.none, w)
      | some bs => .ok (.none, ⟨w.bucket, storeKey w.fs f bs⟩)) ∧
    (client_get true w k (some f) none =
      match assoc w.bucket k with
      | none => .ok (.none, w)
      | some bs => .ok (.pyTrue, ⟨w.bucket, storeKey w.fs f bs⟩)) := by
  refine ⟨?_, rfl, rfl, ?_, ?_, ?_⟩
  · cases hbs : assoc w.bucket k <;>
      simp [client_get, boto2_get, boto3_get, boto3_download, hbs]
  · cases pre with
    | none =>
      have hfilter : (bucketKeys w.bucket).filter (fun k => strStarts "" k) =
          bucketKeys w.bucket :=
        List.filter_eq_self.mpr fun a _ => strStarts_empty a
      simp [client_list, boto2_list, boto3_list, hfilter]
    | some p => rfl
  · cases hbs : assoc w.bucket k <;> simp [client_get, boto2_get, hbs]
  · cases hbs : assoc w.bucket k <;>
      simp [client_get, boto3_get, boto3_download, hbs]

/-- C3 counterexample: a client constructed while boto3 is unavailable
holds a boto2 bucket handle (variant A, first conjunct), yet a `get`
call made while boto3 is available dispatches on the per-call
`'boto3' in sys.modules` check (line 105) into `__boto3_get__`, whose
`self.bucket.download_fileobj` does not exist on the boto2 handle: the
call raises `AttributeError` (second conjunct) instead of running the
construction variant's boto2 body, which at the same input succeeds and
returns `None` (third conjunct).  The selection is therefore
re-evaluated at every call, and the variant used by an operation can
differ from the variant used at construction. -/
theorem C3_counterexample :
    client_init false [] "b" none = .ok ⟨Variant.boto2, "b", none⟩ ∧
    handle_get Variant.boto2 true ⟨[("k", [48])], []⟩ "k" (some "f") none =
      .error (.otherError "AttributeError") ∧
    boto2_get ⟨[("k", [48])], []⟩ "k" (some "f") none =
      .ok (PyVal.none, ⟨[("k", [48])], [("f", [48])]⟩) ∧
    (Except.error (PyExc.otherError "AttributeError") :
        Except PyExc (PyVal × World)) ≠
      .ok (PyVal.none, ⟨[("k", [48])], [("f", [48])]⟩) :=
  ⟨rfl, rfl, rfl, fun hc => Except.noConfusion hc⟩

/-- C3 (amended): every operation re-evaluates the SDK-availability
check on each call rather than using a selection latched at
construction.  Whenever availability at call time equals availability
at construction (the usual case, module availability being fixed once
imports resolve), every operation dispatches to exactly the variant
recorded at construction; if availability has changed, every operation
raises `AttributeError` on the mismatched bucket handle instead of
running either variant's storage semantics. -/
theorem C3_amended_dispatch (a : Bool) (cfg : Config) (bn : String)
    (cr : Option String) (cs : ClientState)
    (h : client_init a cfg bn cr = .ok cs)
    (w : World) (k : String) (lf : Option String) (d : ObjectData)
    (pre : Option String) (fault : Option PyExc) :
    cs.initVariant = moduleVariant a ∧
    (handle_get cs.initVariant a w k lf fault =
      match cs.initVariant with
      | .boto3 => boto3_get w k lf fault
      | .boto2 => boto2_get w k lf fault) ∧
    (handle_put cs.initVariant a w k d fault =
      match cs.initVariant with
      | .boto3 => boto3_put w k d fault
      | .boto2 => boto2_put w k d fault) ∧
    (handle_delete cs.initVariant a w k fault =
      match cs.initVariant with
      | .boto3 => boto3_delete w k fault
      | .boto2 => boto2_delete w k fault) ∧
    (handle_list cs.initVariant a w pre fault =
      match cs.initVariant with
      | .boto3 => boto3_list w pre fault
      | .boto2 => boto2_list w pre fault) ∧
    handle_get cs.initVariant (!a) w k lf fault =
      .error (.otherError "AttributeError") ∧
    handle_put cs.initVariant (!a) w k d fault =
      .error (.otherError "AttributeError") ∧
    handle_delete cs.initVariant (!a) w k fault =
      .error (.otherError "AttributeError") ∧
    handle_list cs.initVariant (!a) w pre fault =
      .error (.otherError "AttributeError") := by
  have hv : cs.initVariant = moduleVariant a := by
    cases cr with
    | none =>
      simp only [client_init] at h
      injection h with h₁
      subst h₁
      rfl
    | some cred =>
      simp only [client_init] at h
      cases hak : configGet cfg cred "aws_access_key_id" with
      | error e =>
        rw [hak] at h
        exact Except.noConfusion h
      | ok ak =>
        rw [hak] at h
        cases hsk : configGet cfg cred "aws_secret_access_key" with
        | error e =>
          rw [hsk] at h
          exact Except.noConfusion h
        | ok sk =>
          rw [hsk] at h
          injection h with h₁
          subst h₁
          rfl
  refine ⟨hv, ?_, ?_, ?_, ?_, ?_, ?_, ?_, ?_⟩ <;> rw [hv] <;> cases a <;> rfl

/-- Witness for C3 (amended) at a concrete input. -/
theorem C3_amended_witness :
    handle_get (⟨Variant.boto3, "b", none⟩ : ClientState).initVariant true
      ⟨[], []⟩ "k" none none =
      match (⟨Variant.boto3, "b", none⟩ : ClientState).initVariant with
      | .boto3 => boto3_get ⟨[], []⟩ "k" none none
      | .boto2 => boto2_get ⟨[], []⟩ "k" none none :=
  (C3_amended_dispatch true [] "b" none ⟨Variant.boto3, "b", none⟩ rfl
    ⟨[], []⟩ "k" none (ObjectData.stream []) none none).2.1

/-- C9: constructing with a named credentials section either resolves
both `aws_access_key_id` and `aws_secret_access_key` from that section
of the configuration and stores them in the client state, or — exactly
when the section or either option is missing — fails at construction
with a `ConfigurationError`, before any operation runs. -/
theorem C9_credentials_resolution (a : Bool) (cfg : Config) (bn cred : String) :
    (∃ sec ak sk, assoc cfg cred = some sec ∧
       assoc sec "aws_access_key_id" = some ak ∧
       assoc sec "aws_secret_access_key" = some sk ∧
       client_init a cfg bn (some cred) = .ok ⟨moduleVariant a, bn, some (ak, sk)⟩) ∨
    ((assoc cfg cred = none ∨
       ∃ sec, assoc cfg cred = some sec ∧
         (assoc sec "aws_access_key_id" = none ∨
          assoc sec "aws_secret_access_key" = none)) ∧
     ∃ m, client_init a cfg bn (some cred) = .error (.configurationError m)) := by
  cases hsec : assoc cfg cred with
  | none =>
    right
    exact ⟨Or.inl rfl, "NoSectionError", by simp [client_init, configGet, hsec]⟩
  | some sec =>
    cases hak : assoc sec "aws_access_key_id" with
    | none =>
      right
      exact ⟨Or.inr ⟨sec, rfl, Or.inl hak⟩, "NoOptionError",
        by simp [client_init, configGet, hsec, hak]⟩
    | some ak =>
      cases hsk : assoc sec "aws_secret_access_key" with
      | none =>
        right
        exact ⟨Or.inr ⟨sec, rfl, Or.inr hsk⟩, "NoOptionError",
          by simp [client_init, configGet, hsec, hak, hsk]⟩
      | some sk =>
        left
        exact ⟨sec, ak, sk, rfl, hak, hsk,
          by simp [client_init, configGet, hsec, hak, hsk]⟩

end RigorS3
